import Mathlib

/-
  Verification development for the per-account cTrader reporting client
  (src/main-async.py).  The definitions below are a shallow embedding of
  the report-formatting, scheduling-gate, connection state machine, and
  window-computation logic of the source file; theorems settle the
  behavioural claims about it.
-/

namespace CTrader

/-! ## Data model

A close-detail block of a deal (ProtoOADealOffsetList closePositionDetail):
entry price, gross profit, swap, commission, running balance — all scaled
integers — plus the per-block moneyDigits count. -/

structure CloseDetail where
  entryPrice : Int
  grossProfit : Int
  swap : Int
  commission : Int
  balance : Int
  moneyDigits : Nat
deriving Repr, DecidableEq

/-- One deal record of a ProtoOADealListRes.  The close-detail block is
optional: a deal that merely opened a position has none. -/
structure DealRecord where
  dealId : Int
  symbolId : Int
  tradeSide : Int
  volume : Int
  executionTimestamp : Int
  closePositionDetail : Option CloseDetail
deriving Repr, DecidableEq

/-- One open position of a ProtoOAGetPositionUnrealizedPnLRes. -/
structure Position where
  positionId : Int
  grossUnrealizedPnL : Int
  netUnrealizedPnL : Int
deriving Repr, DecidableEq

/-! ## Symbol catalog (get_symbol_name, calculate_volume) -/

/-- get_symbol_name: static symbol-id to display-name map with 'N/A' fallback. -/
def get_symbol_name (symbol_id : Int) : String :=
  if symbol_id = 5 then "AUDUSD"
  else if symbol_id = 12 then "NZDUSD"
  else if symbol_id = 41 then "XAUUSD"
  else if symbol_id = 10026 then "BTCUSD"
  else "N/A"

/-- The per-symbol volume-digit table inside calculate_volume:
41 (XAUUSD) maps to 2, 10026 (BTCUSD) maps to 0, every other id to 5. -/
def volumeDigits (symbol_id : Int) : Nat :=
  if symbol_id = 41 then 2 else if symbol_id = 10026 then 0 else 5

/-- calculate_volume: volume / 10 ^ (money_digits + table digits).
Arithmetic is modelled over the rationals. -/
def calculate_volume (symbol_id : Int) (volume : Int) (money_digits : Nat) : ℚ :=
  (volume : ℚ) / 10 ^ (money_digits + volumeDigits symbol_id)

/-! ## Trading-hours gate (is_trading_hours) -/

/-- A wall-clock time of day, as datetime.time with zero microseconds. -/
structure ClockTime where
  hour : Nat
  minute : Nat
  second : Nat
deriving Repr, DecidableEq

/-- Lexicographic comparison of clock times, as Python datetime.time order. -/
def timeLe (a b : ClockTime) : Bool :=
  decide (a.hour < b.hour) ||
    (decide (a.hour = b.hour) &&
      (decide (a.minute < b.minute) ||
        (decide (a.minute = b.minute) && decide (a.second ≤ b.second))))

/-- is_trading_hours as a function of the current weekday
(0 = Monday .. 6 = Sunday, as datetime.weekday()) and clock time:
Sunday opens at 22:02:00, Monday-Thursday always open, Friday closes
after 20:57:00, Saturday closed. -/
def is_trading_hours (weekday : Nat) (t : ClockTime) : Bool :=
  if weekday = 6 then timeLe ⟨22, 2, 0⟩ t
  else if weekday = 0 ∨ weekday = 1 ∨ weekday = 2 ∨ weekday = 3 then true
  else if weekday = 4 then timeLe t ⟨20, 57, 0⟩
  else false

/-! ## Closed-deal filter of the daily and weekly deal reports -/

/-- The second filter stage of send_deal_telegram_report and
send_weekly_deal_telegram_report: the close-detail balance is
strictly positive. -/
def deal_is_closed (d : DealRecord) : Bool :=
  match d.closePositionDetail with
  | some cd => decide (0 < cd.balance)
  | none => false

/-- The two-stage filter of the deal reports: keep deals carrying a
close-detail block, then keep those with balance strictly positive. -/
def closedDealsOf (deals : List DealRecord) : List DealRecord :=
  (deals.filter (fun d => d.closePositionDetail.isSome)).filter deal_is_closed

/-- Rendered label of the side column of the daily deal report. -/
def renderDirection (tradeSide : Int) : String :=
  if tradeSide = 1 then "Sell" else "Buy"

/-- Rendered label of the side column of the weekly deal report. -/
def renderWeeklyDirection (tradeSide : Int) : String :=
  if tradeSide = 1 then "Sell" else "Buy"

/-- Rendered trade-side label of the execution-event message. -/
def handle_execution_event_side (tradeSide : Int) : String :=
  if tradeSide = 1 then "BUY" else if tradeSide = 2 then "SELL" else "n/a"

/-- One rendered row of a deal report, before text formatting. -/
structure DealRow where
  dealId : Int
  symbol : String
  direction : String
  volume : ℚ
  swap : ℚ
  commission : ℚ
  netProfit : ℚ
  balance : ℚ
deriving Repr, DecidableEq

/-- Protobuf default close-detail block (all fields zero), the value an
absent submessage reads as. -/
def defaultCloseDetail : CloseDetail := ⟨0, 0, 0, 0, 0, 0⟩

/-- The per-deal computation of the loop body of send_deal_telegram_report:
volume via calculate_volume with the close-detail moneyDigits, the
monetary columns descaled by 10 ^ moneyDigits, net profit the sum of
gross profit, swap and commission. -/
def dealRowOf (d : DealRecord) : DealRow :=
  let cd := d.closePositionDetail.getD defaultCloseDetail
  { dealId := d.dealId
    symbol := get_symbol_name d.symbolId
    direction := renderDirection d.tradeSide
    volume := calculate_volume d.symbolId d.volume cd.moneyDigits
    swap := (cd.swap : ℚ) / 10 ^ cd.moneyDigits
    commission := (cd.commission : ℚ) / 10 ^ cd.moneyDigits
    netProfit := (cd.grossProfit : ℚ) / 10 ^ cd.moneyDigits
      + (cd.swap : ℚ) / 10 ^ cd.moneyDigits
      + (cd.commission : ℚ) / 10 ^ cd.moneyDigits
    balance := (cd.balance : ℚ) / 10 ^ cd.moneyDigits }

/-- The rows of a daily deal report: one row per deal surviving the
closed-deal filter. -/
def dealReportRows (deals : List DealRecord) : List DealRow :=
  (closedDealsOf deals).map dealRowOf

/-- One rendered row of the PnL report: gross and net unrealized PnL
descaled by the response-level moneyDigits. -/
def pnlRowOf (p : Position) (money_digits : Nat) : ℚ × ℚ :=
  ((p.grossUnrealizedPnL : ℚ) / 10 ^ money_digits,
   (p.netUnrealizedPnL : ℚ) / 10 ^ money_digits)

/-- A ProtoOAGetPositionUnrealizedPnLRes: the position list together with
the single response-level moneyDigits field the handler stores into
self.money_digits and the PnL report then uses for every row. -/
structure PnlResponse where
  positionUnrealizedPnL : List Position
  moneyDigits : Nat
deriving Repr, DecidableEq

/-- The rows of the PnL report: every position of the response descaled
by the one response-level moneyDigits. -/
def pnlReportRows (res : PnlResponse) : List (ℚ × ℚ) :=
  res.positionUnrealizedPnL.map (fun p => pnlRowOf p res.moneyDigits)

/-! ## Report dispatch of on_message_received and the send functions

Each send function is modelled as returning the report message it hands to
send_telegram_message, or none when the function returns without sending. -/

/-- The distinct report messages the client can emit. -/
inductive Report where
  | pnlTable
  | noOpenPositions
  | dailyDealTable
  | noDailyClosedDeals
  | weeklyDealTable
  | noWeeklyClosedDeals
deriving Repr, DecidableEq

/-- send_pnl_telegram_report: suppressed outside trading hours, silent on
an empty position list, otherwise the PnL table. -/
def send_pnl_telegram_report (trading : Bool) (positions : List Position) :
    Option Report :=
  if trading = false then none
  else if positions = [] then none
  else some .pnlTable

/-- send_empty_pnl_telegram_report: suppressed outside trading hours,
otherwise the fixed no-open-position message. -/
def send_empty_pnl_telegram_report (trading : Bool) : Option Report :=
  if trading = false then none else some .noOpenPositions

/-- send_empty_deal_telegram_report: suppressed outside trading hours,
otherwise the fixed no-closed-deals message of the daily report. -/
def send_empty_deal_telegram_report (trading : Bool) : Option Report :=
  if trading = false then none else some .noDailyClosedDeals

/-- send_deal_telegram_report: trading-hours gate first, silent on an
empty deal list, the empty variant when no deal survives the closed-deal
filter, otherwise the daily table. -/
def send_deal_telegram_report (trading : Bool) (deals : List DealRecord) :
    Option Report :=
  if trading = false then none
  else if deals = [] then none
  else if closedDealsOf deals = [] then send_empty_deal_telegram_report trading
  else some .dailyDealTable

/-- send_empty_weekly_deal_telegram_report: always sent, no gate. -/
def send_empty_weekly_deal_telegram_report : Option Report :=
  some .noWeeklyClosedDeals

/-- send_weekly_deal_telegram_report: no trading-hours gate; silent on an
empty deal list, the empty weekly variant when no deal survives the
closed-deal filter, otherwise the weekly table. -/
def send_weekly_deal_telegram_report (deals : List DealRecord) :
    Option Report :=
  if deals = [] then none
  else if closedDealsOf deals = [] then send_empty_weekly_deal_telegram_report
  else some .weeklyDealTable

/-- The ProtoOAGetPositionUnrealizedPnLRes branch of on_message_received:
non-empty position list goes to the PnL report, empty to the empty variant. -/
def handle_pnl_response (trading : Bool) (positions : List Position) :
    Option Report :=
  if positions ≠ [] then send_pnl_telegram_report trading positions
  else send_empty_pnl_telegram_report trading

/-- The ProtoOADealListRes branch of on_message_received: the weekly flag
selects the weekly path, otherwise the daily path; each path sends the
empty variant on an empty deal list. -/
def handle_deal_list_response (is_weekly trading : Bool)
    (deals : List DealRecord) : Option Report :=
  if is_weekly then
    if deals ≠ [] then send_weekly_deal_telegram_report deals
    else send_empty_weekly_deal_telegram_report
  else
    if deals ≠ [] then send_deal_telegram_report trading deals
    else send_empty_deal_telegram_report trading

/-! ## Scheduler gates (schedule_pnl_report and friends) -/

/-- The data requests a scheduler firing can issue. -/
inductive DataRequest where
  | pnlRequest
  | dailyDealListRequest
  | weeklyDealListRequest
deriving Repr, DecidableEq

/-- Python truthiness of the optional account id: absent or zero is falsy. -/
def truthyAccount : Option Int → Bool
  | none => false
  | some v => v != 0

/-- schedule_pnl_report: issues the PnL request only when the connection is
completed and an account id is bound; otherwise does nothing. -/
def schedule_pnl_report (connection_completed : Bool)
    (account : Option Int) : Option DataRequest :=
  if connection_completed && truthyAccount account then some .pnlRequest
  else none

/-- schedule_daily_deal_report: same gate, issues the daily deal-list request. -/
def schedule_daily_deal_report (connection_completed : Bool)
    (account : Option Int) : Option DataRequest :=
  if connection_completed && truthyAccount account then
    some .dailyDealListRequest
  else none

/-- schedule_weekly_deal_report: same gate, issues the weekly deal-list request. -/
def schedule_weekly_deal_report (connection_completed : Bool)
    (account : Option Int) : Option DataRequest :=
  if connection_completed && truthyAccount account then
    some .weeklyDealListRequest
  else none

/-! ## Connection state machine (connected / disconnected /
on_message_received auth branches) -/

/-- removeChar: drop every occurrence of a character, as Python
str.replace with an empty replacement. -/
def removeChar (c : Char) : List Char → List Char
  | [] => []
  | x :: xs => if x = c then removeChar c xs else x :: removeChar c xs

/-- The reason clean-up of the disconnected callback: remove every angle
bracket from the reason text. -/
def sanitizeReason (reason : List Char) : List Char :=
  removeChar '>' (removeChar '<' reason)

/-- The Telegram messages the connection state machine emits. -/
inductive Notif where
  | connectionLost (reason : List Char)
  | reconnectionSuccessful (attempts : Nat)
deriving Repr, DecidableEq

/-- The transport/auth events the client callbacks react to. -/
inductive Event where
  | transportConnected
  | transportDisconnected (reason : List Char)
  | appAuthRes
  | accountAuthRes
deriving Repr, DecidableEq

/-- The connection-related mutable fields of CTraderAsyncClient. -/
structure SessionState where
  connection_attempts : Nat
  connection_completed : Bool
  current_account_id : Option Int
deriving Repr, DecidableEq

/-- One callback firing of the source, as a state transition plus the list
of Telegram messages it sends:
connected resets the attempt counter;
disconnected clears connection_completed and sends the connection-lost
message with the sanitized reason (the counter is not touched);
the app-auth response branch marks the connection completed only when no
account id is bound;
the account-auth response branch marks the connection completed and, when
the attempt counter is positive, sends the reconnection-successful message
and resets the counter. -/
def step (s : SessionState) : Event → SessionState × List Notif
  | .transportConnected => ({ s with connection_attempts := 0 }, [])
  | .transportDisconnected r =>
      ({ s with connection_completed := false },
       [.connectionLost (sanitizeReason r)])
  | .appAuthRes =>
      if truthyAccount s.current_account_id then (s, [])
      else ({ s with connection_completed := true }, [])
  | .accountAuthRes =>
      if s.connection_attempts > 0 then
        ({ s with connection_completed := true, connection_attempts := 0 },
         [.reconnectionSuccessful s.connection_attempts])
      else ({ s with connection_completed := true }, [])

/-- Run a sequence of callback firings, accumulating all emitted messages. -/
def runEvents (s : SessionState) : List Event → SessionState × List Notif
  | [] => (s, [])
  | e :: es =>
      let r1 := step s e
      let r2 := runEvents r1.1 es
      (r2.1, r1.2 ++ r2.2)

/-- Recognizer of the reconnection-successful message. -/
def isRecoveryNotif : Notif → Bool
  | .reconnectionSuccessful _ => true
  | .connectionLost _ => false

/-! ## Weekly window computation (send_weekly_deal_list_req) -/

/-- A naive local datetime: days since a Monday epoch plus a time of day,
mirroring the datetime.datetime fields the source manipulates. -/
structure DateTime where
  day : Nat
  hour : Nat
  minute : Nat
  second : Nat
  microsecond : Nat
deriving Repr, DecidableEq

/-- datetime.weekday(): 0 = Monday .. 6 = Sunday. -/
def DateTime.weekday (dt : DateTime) : Nat := dt.day % 7

/-- datetime.replace of the time-of-day fields. -/
def DateTime.replaceTime (dt : DateTime) (h m s us : Nat) : DateTime :=
  { dt with hour := h, minute := m, second := s, microsecond := us }

/-- Subtraction of a whole number of days (timedelta(days = n)). -/
def DateTime.subDays (dt : DateTime) (n : Nat) : DateTime :=
  { dt with day := dt.day - n }

/-- int(dt.timestamp() * 1000): the epoch timestamp in milliseconds. -/
def DateTime.timestampMs (dt : DateTime) : Nat :=
  (((dt.day * 24 + dt.hour) * 60 + dt.minute) * 60 + dt.second) * 1000
    + dt.microsecond / 1000

/-- send_weekly_deal_list_req: from-timestamp is now minus five days at
21:00:00.000, to-timestamp is today at 21:00:00.000, both in milliseconds. -/
def send_weekly_deal_list_req (now : DateTime) : Nat × Nat :=
  let last_sunday := (now.subDays 5).replaceTime 21 0 0 0
  let last_friday := now.replaceTime 21 0 0 0
  (last_sunday.timestampMs, last_friday.timestampMs)

/-- Modelled from the spec: ReportWindow membership in the half-open
interval [from, to).  The venue-side filtering of returned deals by the
requested window is performed by the external trading venue, not by code
under src; the spec defines the ReportWindow as a half-open interval. -/
def inReportWindow (fromTs toTs ts : Nat) : Bool :=
  decide (fromTs ≤ ts) && decide (ts < toTs)

/-- Modelled from the spec/claim words for comparison with
calculate_volume: volume descaling whose divisor is 10 raised to the
per-symbol table digits alone. -/
def claimed_volume_descale (symbol_id : Int) (volume : Int) : ℚ :=
  (volume : ℚ) / 10 ^ volumeDigits symbol_id

/-! ## Helper lemmas -/

theorem mem_of_mem_removeChar {x c : Char} :
    ∀ l : List Char, x ∈ removeChar c l → x ∈ l
  | [], h => by simp [removeChar] at h
  | a :: as, h => by
      by_cases hac : a = c
      · simp only [removeChar, if_pos hac] at h
        exact List.mem_cons_of_mem a (mem_of_mem_removeChar as h)
      · simp only [removeChar, if_neg hac] at h
        rcases List.mem_cons.mp h with h1 | h2
        · exact List.mem_cons.mpr (Or.inl h1)
        · exact List.mem_cons_of_mem a (mem_of_mem_removeChar as h2)

theorem not_mem_removeChar (c : Char) : ∀ l : List Char, c ∉ removeChar c l
  | [] => by simp [removeChar]
  | a :: as => by
      by_cases hac : a = c
      · simpa only [removeChar, if_pos hac] using not_mem_removeChar c as
      · simp only [removeChar, if_neg hac, List.mem_cons, not_or]
        exact ⟨fun h => hac h.symm, not_mem_removeChar c as⟩

theorem elem_false_of_not_mem {c : Char} {l : List Char} (h : c ∉ l) :
    l.elem c = false := by
  cases hb : l.elem c
  · rfl
  · exact absurd (List.mem_of_elem_eq_true hb) h

theorem step_keeps_attempts_zero (s : SessionState) (e : Event)
    (h : s.connection_attempts = 0) :
    (step s e).1.connection_attempts = 0 ∧
    (step s e).2.filter isRecoveryNotif = [] := by
  cases e with
  | transportConnected => simp [step, isRecoveryNotif]
  | transportDisconnected r => simp [step, h, isRecoveryNotif]
  | appAuthRes =>
      by_cases hb : truthyAccount s.current_account_id <;>
        simp [step, hb, h, isRecoveryNotif]
  | accountAuthRes => simp [step, h, isRecoveryNotif]

theorem runEvents_keeps_attempts_zero (es : List Event) :
    ∀ s : SessionState, s.connection_attempts = 0 →
      (runEvents s es).1.connection_attempts = 0 ∧
      (runEvents s es).2.filter isRecoveryNotif = [] := by
  induction es with
  | nil => intro s h; exact ⟨h, rfl⟩
  | cons e es ih =>
      intro s h
      obtain ⟨h1, h2⟩ := step_keeps_attempts_zero s e h
      obtain ⟨h3, h4⟩ := ih (step s e).1 h1
      simp [runEvents, List.filter_append, h2, h3, h4]

/-! ## Claims -/

/-- C1: a deal is included in the rendered closed-deal report (daily or
weekly, which share the filter) if and only if it carries a close-detail
block whose balance field is strictly positive; the report renders exactly
one row per surviving deal. -/
theorem closed_deal_filter_iff (deals : List DealRecord) (d : DealRecord) :
    (d ∈ closedDealsOf deals ↔
      d ∈ deals ∧ ∃ cd, d.closePositionDetail = some cd ∧ 0 < cd.balance) ∧
    dealReportRows deals = (closedDealsOf deals).map dealRowOf := by
  refine ⟨?_, rfl⟩
  simp only [closedDealsOf, List.mem_filter]
  cases hd : d.closePositionDetail with
  | none => simp [deal_is_closed, hd]
  | some cd => simp [deal_is_closed, hd, and_assoc]

/-- C2: the code never increments the reconnect-attempt counter — from a
fresh session the counter is 0 after every event sequence, no
reconnection-successful message is ever emitted, and in particular one
disconnect followed by an account-auth success yields only the
connection-lost message and a counter of 0 (the claim expects counter 1
and a recovery message carrying 1). -/
theorem reconnect_counter_never_increments :
    (∀ (es : List Event) (cc : Bool) (acc : Option Int),
        (runEvents ⟨0, cc, acc⟩ es).1.connection_attempts = 0 ∧
        (runEvents ⟨0, cc, acc⟩ es).2.filter isRecoveryNotif = []) ∧
    (runEvents ⟨0, true, some 1⟩
        [Event.transportDisconnected [], Event.accountAuthRes]).2 =
      [Notif.connectionLost []] ∧
    (runEvents ⟨0, true, some 1⟩ [Event.transportDisconnected []]).1.connection_attempts = 0 := by
  refine ⟨fun es cc acc => runEvents_keeps_attempts_zero es ⟨0, cc, acc⟩ rfl, ?_, ?_⟩ <;> rfl

/-- C3: the trading-hours predicate is closed on Friday 20:58, open on
Friday 20:56, closed on Sunday 22:01, open on Sunday 22:03, open at every
Monday-to-Thursday time, and closed at every Saturday time. -/
theorem trading_hours_gate_boundaries :
    is_trading_hours 4 ⟨20, 58, 0⟩ = false ∧
    is_trading_hours 4 ⟨20, 56, 0⟩ = true ∧
    is_trading_hours 6 ⟨22, 1, 0⟩ = false ∧
    is_trading_hours 6 ⟨22, 3, 0⟩ = true ∧
    (∀ (w : Nat) (t : ClockTime), w = 0 ∨ w = 1 ∨ w = 2 ∨ w = 3 →
        is_trading_hours w t = true) ∧
    (∀ t : ClockTime, is_trading_hours 5 t = false) := by
  refine ⟨by decide, by decide, by decide, by decide, ?_, ?_⟩
  · rintro w t (rfl | rfl | rfl | rfl) <;> simp [is_trading_hours]
  · intro t; simp [is_trading_hours]

/-- Witness for C3: a concrete Wednesday time is open. -/
theorem trading_hours_gate_boundaries_witness :
    is_trading_hours 2 ⟨13, 30, 0⟩ = true ∧
    is_trading_hours 5 ⟨13, 30, 0⟩ = false := by
  have h := trading_hours_gate_boundaries
  exact ⟨h.2.2.2.2.1 2 ⟨13, 30, 0⟩ (by decide), h.2.2.2.2.2 ⟨13, 30, 0⟩⟩

/-- C4: a PnL response with zero positions yields the no-open-positions
message exactly when inside trading hours; a deal-list response with zero
qualifying closed deals yields the no-closed-deals message gated by
trading hours on the daily path, and always yields the weekly empty
message on the weekly path. -/
theorem empty_result_reports :
    (∀ trading : Bool,
        handle_pnl_response trading [] =
          if trading then some Report.noOpenPositions else none) ∧
    (∀ (trading : Bool) (deals : List DealRecord), closedDealsOf deals = [] →
        handle_deal_list_response false trading deals =
          if trading then some Report.noDailyClosedDeals else none) ∧
    (∀ (trading : Bool) (deals : List DealRecord), closedDealsOf deals = [] →
        handle_deal_list_response true trading deals =
          some Report.noWeeklyClosedDeals) := by
  refine ⟨?_, ?_, ?_⟩
  · intro trading
    cases trading <;>
      simp [handle_pnl_response, send_pnl_telegram_report,
        send_empty_pnl_telegram_report]
  · intro trading deals h
    by_cases hd : deals = []
    · subst hd
      cases trading <;>
        simp [handle_deal_list_response, send_empty_deal_telegram_report]
    · cases trading <;>
        simp [handle_deal_list_response, send_deal_telegram_report,
          send_empty_deal_telegram_report, hd, h]
  · intro trading deals h
    by_cases hd : deals = []
    · subst hd
      simp [handle_deal_list_response, send_empty_weekly_deal_telegram_report]
    · simp [handle_deal_list_response, send_weekly_deal_telegram_report,
        send_empty_weekly_deal_telegram_report, hd, h]

/-- Witness for C4: a single open-only deal (no close-detail block) gives
the weekly empty message, and nothing on the daily path outside trading
hours. -/
theorem empty_result_reports_witness :
    handle_deal_list_response true false [⟨1, 5, 1, 100, 0, none⟩] =
      some Report.noWeeklyClosedDeals ∧
    handle_deal_list_response false false [⟨1, 5, 1, 100, 0, none⟩] = none ∧
    handle_pnl_response true [] = some Report.noOpenPositions := by
  have h := empty_result_reports
  exact ⟨h.2.2 false [⟨1, 5, 1, 100, 0, none⟩] (by decide),
    h.2.1 false [⟨1, 5, 1, 100, 0, none⟩] (by decide),
    h.1 true⟩

/-- C5: with now a Friday at 21:15, the weekly request window runs from
the most recent Sunday at 21:00:00.000 (five days back is a Sunday, and no
nearer day is) to the current Friday at 21:00:00.000, and a timestamp
exactly at the end boundary lies outside the half-open window. -/
theorem weekly_window_friday (now : DateTime)
    (hwd : now.weekday = 4) (hday : 5 ≤ now.day)
    (_hh : now.hour = 21) (_hm : now.minute = 15) :
    (send_weekly_deal_list_req now).1 =
      (DateTime.mk (now.day - 5) 21 0 0 0).timestampMs ∧
    (send_weekly_deal_list_req now).2 =
      (DateTime.mk now.day 21 0 0 0).timestampMs ∧
    (DateTime.mk (now.day - 5) 21 0 0 0).weekday = 6 ∧
    (∀ k, k < 5 → (DateTime.mk (now.day - k) 21 0 0 0).weekday ≠ 6) ∧
    inReportWindow (send_weekly_deal_list_req now).1
      (send_weekly_deal_list_req now).2
      (send_weekly_deal_list_req now).2 = false := by
  simp only [DateTime.weekday] at hwd
  refine ⟨rfl, rfl, ?_, ?_, ?_⟩
  · simp only [DateTime.weekday]
    omega
  · intro k hk
    simp only [DateTime.weekday]
    omega
  · simp [inReportWindow]

/-- Witness for C5: the concrete Friday with day index 11. -/
theorem weekly_window_friday_witness :
    (send_weekly_deal_list_req ⟨11, 21, 15, 0, 0⟩).1 =
      (DateTime.mk (11 - 5) 21 0 0 0).timestampMs ∧
    (DateTime.mk (11 - 5) 21 0 0 0).weekday = 6 ∧
    inReportWindow (send_weekly_deal_list_req ⟨11, 21, 15, 0, 0⟩).1
      (send_weekly_deal_list_req ⟨11, 21, 15, 0, 0⟩).2
      (send_weekly_deal_list_req ⟨11, 21, 15, 0, 0⟩).2 = false := by
  have h := weekly_window_friday ⟨11, 21, 15, 0, 0⟩ (by decide) (by decide) rfl rfl
  exact ⟨h.1, h.2.2.1, h.2.2.2.2⟩

/-- C6 counterexample: for symbol 41 with moneyDigits 2, calculate_volume
divides by 10 ^ (2 + 2), not by 10 ^ 2 as the claim states; and the
swap column of two deals of one response, both with scaled swap 100 but
with close-detail moneyDigits 0 and 2, renders as 100 and 1, which no
single shared response-level digit count d can produce. -/
theorem volume_divisor_claim_counterexample :
    calculate_volume 41 100000 2 ≠ claimed_volume_descale 41 100000 ∧
    ¬ ∃ d : Nat,
      (dealRowOf ⟨1, 5, 1, 100, 0, some ⟨0, 0, 100, 0, 1, 0⟩⟩).swap =
        (100 : ℚ) / 10 ^ d ∧
      (dealRowOf ⟨2, 5, 1, 100, 0, some ⟨0, 0, 100, 0, 1, 2⟩⟩).swap =
        (100 : ℚ) / 10 ^ d := by
  constructor
  · norm_num [calculate_volume, claimed_volume_descale, volumeDigits]
  · rintro ⟨d, h1, h2⟩
    have e1 : (dealRowOf ⟨1, 5, 1, 100, 0, some ⟨0, 0, 100, 0, 1, 0⟩⟩).swap =
        (100 : ℚ) := by
      norm_num [dealRowOf]
    have e2 : (dealRowOf ⟨2, 5, 1, 100, 0, some ⟨0, 0, 100, 0, 1, 2⟩⟩).swap =
        (1 : ℚ) := by
      norm_num [dealRowOf]
    rw [e1] at h1
    rw [e2] at h2
    exact absurd (h1.trans h2.symm) (by norm_num)

/-- C6 amended: the volume divisor is 10 ^ (moneyDigits + table digits)
where the table maps 41 to 2 and 10026 to 0 with default 5; the monetary
columns of a deal-report row are descaled by 10 ^ moneyDigits taken from
that deal's own close-detail block; and every row of the PnL report is
descaled by 10 ^ moneyDigits with the single response-level moneyDigits. -/
theorem volume_divisor_amended (v : Int) (md : Nat) (d : DealRecord) :
    calculate_volume 41 v md = (v : ℚ) / 10 ^ (md + 2) ∧
    calculate_volume 10026 v md = (v : ℚ) / 10 ^ md ∧
    (∀ sid : Int, sid ≠ 41 → sid ≠ 10026 →
        calculate_volume sid v md = (v : ℚ) / 10 ^ (md + 5)) ∧
    (∀ cd : CloseDetail, d.closePositionDetail = some cd →
        (dealRowOf d).volume = calculate_volume d.symbolId d.volume cd.moneyDigits ∧
        (dealRowOf d).swap = (cd.swap : ℚ) / 10 ^ cd.moneyDigits ∧
        (dealRowOf d).commission = (cd.commission : ℚ) / 10 ^ cd.moneyDigits ∧
        (dealRowOf d).balance = (cd.balance : ℚ) / 10 ^ cd.moneyDigits ∧
        (dealRowOf d).netProfit =
          ((cd.grossProfit : ℚ) + cd.swap + cd.commission) / 10 ^ cd.moneyDigits) ∧
    (∀ res : PnlResponse, pnlReportRows res =
        res.positionUnrealizedPnL.map (fun p =>
          ((p.grossUnrealizedPnL : ℚ) / 10 ^ res.moneyDigits,
           (p.netUnrealizedPnL : ℚ) / 10 ^ res.moneyDigits))) := by
  refine ⟨?_, ?_, ?_, ?_, ?_⟩
  · simp [calculate_volume, volumeDigits]
  · simp [calculate_volume, volumeDigits]
  · intro sid h41 h10026
    simp [calculate_volume, volumeDigits, h41, h10026]
  · intro cd hd
    refine ⟨?_, ?_, ?_, ?_, ?_⟩ <;> simp [dealRowOf, hd]
    rw [div_add_div_same, div_add_div_same]
  · intro res
    simp [pnlReportRows, pnlRowOf]

/-- Witness for C6 amended: concrete unrecognized symbol 5, a concrete
closed deal row, and a concrete one-position PnL response. -/
theorem volume_divisor_amended_witness :
    calculate_volume 5 100000 2 = (100000 : ℚ) / 10 ^ 7 ∧
    (dealRowOf ⟨1, 41, 1, 100000, 0, some ⟨0, 300, -20, -10, 5000, 2⟩⟩).balance =
      (5000 : ℚ) / 10 ^ 2 ∧
    pnlReportRows ⟨[⟨7, 1234, 567⟩], 2⟩ =
      [((1234 : ℚ) / 10 ^ 2, (567 : ℚ) / 10 ^ 2)] := by
  have h1 := (volume_divisor_amended 100000 2 ⟨0, 0, 0, 0, 0, none⟩).2.2.1
    5 (by decide) (by decide)
  have h2 := (volume_divisor_amended 100000 2
    ⟨1, 41, 1, 100000, 0, some ⟨0, 300, -20, -10, 5000, 2⟩⟩).2.2.2.1
    ⟨0, 300, -20, -10, 5000, 2⟩ rfl
  have h3 := (volume_divisor_amended 100000 2 ⟨0, 0, 0, 0, 0, none⟩).2.2.2.2
    ⟨[⟨7, 1234, 567⟩], 2⟩
  refine ⟨h1, h2.2.2.2.1, ?_⟩
  simpa using h3

/-- C8: a scheduler firing issues a data request only when the connection
is completed and a (truthy) account id is bound; a due-but-not-ready
firing returns nothing. -/
theorem scheduler_ready_gate :
    (∀ (c : Bool) (a : Option Int),
        ((schedule_pnl_report c a).isSome ∨
          (schedule_daily_deal_report c a).isSome ∨
          (schedule_weekly_deal_report c a).isSome) →
        c = true ∧ truthyAccount a = true) ∧
    (∀ (c : Bool) (a : Option Int), c = false ∨ truthyAccount a = false →
        schedule_pnl_report c a = none ∧
        schedule_daily_deal_report c a = none ∧
        schedule_weekly_deal_report c a = none) := by
  constructor
  · intro c a h
    cases c <;> cases hta : truthyAccount a <;>
      simp [schedule_pnl_report, schedule_daily_deal_report,
        schedule_weekly_deal_report, hta] at h ⊢
  · intro c a h
    rcases h with h | h <;>
      simp [schedule_pnl_report, schedule_daily_deal_report,
        schedule_weekly_deal_report, h]

/-- Witness for C8: concrete not-ready firings are no-ops. -/
theorem scheduler_ready_gate_witness :
    schedule_pnl_report false (some 1) = none ∧
    schedule_daily_deal_report true none = none ∧
    schedule_weekly_deal_report true (some 0) = none := by
  have h := scheduler_ready_gate
  exact ⟨(h.2 false (some 1) (Or.inl rfl)).1,
    (h.2 true none (Or.inr rfl)).2.1,
    (h.2 true (some 0) (Or.inr (by decide))).2.2⟩

/-- C9: every transport-disconnect emits exactly one connection-lost
message whose reason text is the sanitized reason, and the sanitized
reason contains neither an opening nor a closing angle bracket. -/
theorem disconnect_reason_sanitized (s : SessionState) (r : List Char) :
    (step s (.transportDisconnected r)).2 =
      [Notif.connectionLost (sanitizeReason r)] ∧
    (step s (.transportDisconnected r)).1.connection_completed = false ∧
    (sanitizeReason r).elem '<' = false ∧
    (sanitizeReason r).elem '>' = false := by
  refine ⟨rfl, rfl, elem_false_of_not_mem ?_, elem_false_of_not_mem ?_⟩
  · exact fun h => not_mem_removeChar '<' _ (mem_of_mem_removeChar _ h)
  · exact not_mem_removeChar '>' _

/-- C10: the daily and weekly deal reports render trade side 1 as Sell and
every other value as Buy, while the execution-event message renders 1 as
BUY and 2 as SELL. -/
theorem trade_side_labels :
    renderDirection 1 = "Sell" ∧ renderWeeklyDirection 1 = "Sell" ∧
    (∀ t : Int, t ≠ 1 →
        renderDirection t = "Buy" ∧ renderWeeklyDirection t = "Buy") ∧
    handle_execution_event_side 1 = "BUY" ∧
    handle_execution_event_side 2 = "SELL" := by
  refine ⟨rfl, rfl, ?_, rfl, rfl⟩
  intro t ht
  simp [renderDirection, renderWeeklyDirection, ht]

/-- Witness for C10: trade side 2 renders as Sell in the execution event
but Buy in the deal reports. -/
theorem trade_side_labels_witness :
    renderDirection 2 = "Buy" ∧ renderWeeklyDirection 2 = "Buy" := by
  have h := trade_side_labels
  exact h.2.2.1 2 (by decide)

end CTrader
